import Mathlib

/-!
Shallow embedding of the event-driven user-provisioning pipeline in
`backend/open_webui/services/kafka_consumer.py`, and proofs of the
specification claims about it.

The Python functions `fetch_user_from_authserver` and
`consume_user_created_events` are modelled as pure Lean functions.  The
external collaborators (identity-service network responses, the account
store) are passed in as explicit values; machine state that the Python code
mutates (the account store, the set of insert calls made, the number of
messages processed) is threaded explicitly.
-/

namespace UserProvisioning

/-- Python str.upper modelled character-wise (ASCII case mapping). -/
def pyUpper (s : String) : String := ⟨s.data.map Char.toUpper⟩

/-- Python str.lower modelled character-wise (ASCII case mapping). -/
def pyLower (s : String) : String := ⟨s.data.map Char.toLower⟩

/-- ASCII whitespace recognised by Python str.strip with no argument. -/
def isPySpace (c : Char) : Bool :=
  c == ' ' || c == '\t' || c == '\n' || c == '\x0d' || c == '\x0b' || c == '\x0c'

/-- Python str.strip with no argument: drop leading and trailing whitespace. -/
def pyStrip (s : String) : String :=
  ⟨((s.data.dropWhile isPySpace).reverse.dropWhile isPySpace).reverse⟩

/-- Helper for the Python `in` test on strings: does the haystack start with
the needle? -/
def matchAt : List Char → List Char → Bool
  | [], _ => true
  | _ :: _, [] => false
  | a :: as, b :: bs => a == b && matchAt as bs

/-- Python `needle in hay` for strings: needle occurs as a contiguous
substring of hay. -/
def hasSub (needle : List Char) : List Char → Bool
  | [] => matchAt needle []
  | b :: bs => matchAt needle (b :: bs) || hasSub needle bs

/-- Values that can appear as elements of the polymorphic `roles` list in the
identity-service JSON response. -/
inductive PyVal where
  | vstr (s : String)
  | vint (n : Int)
  | vbool (b : Bool)
  | vnone
deriving DecidableEq

/-- Python str() applied to a roles-list element, as done by
`str(role)` on line 138 of kafka_consumer.py. -/
def pyStr : PyVal → String
  | .vstr s => s
  | .vint n => toString n
  | .vbool true => "True"
  | .vbool false => "False"
  | .vnone => "None"

/-- The polymorphic `roles` field of the identity-service response:
a scalar string, a list, or anything else (absent, null, number, ...),
matching the isinstance dispatch on lines 134-139 of kafka_consumer.py. -/
inductive RolesField where
  | rstr (s : String)
  | rlist (xs : List PyVal)
  | rother
deriving DecidableEq

/-- The admin marker searched for on lines 135 and 138 of
kafka_consumer.py. -/
def adminMarker : List Char := ['A', 'D', 'M', 'I', 'N']

/-- Role derivation, lines 132-139 of kafka_consumer.py:
start from "user"; a scalar string containing "ADMIN" after upper-casing, or
a list with some element whose str() contains "ADMIN" after upper-casing,
yields "admin". -/
def deriveRole : RolesField → String
  | .rstr s => if hasSub adminMarker (pyUpper s).data then "admin" else "user"
  | .rlist xs =>
      if xs.any (fun r => hasSub adminMarker (pyUpper (pyStr r)).data)
      then "admin" else "user"
  | .rother => "user"

/-- The identity-service user JSON consumed by the pipeline (fields read on
lines 125-142 of kafka_consumer.py).  A field is `none` when the key is
absent from the response. -/
structure UserData where
  email : Option String
  name : Option String
  profileImageUrl : Option String
  roles : RolesField
  uuid : Option String
  enabled : Option Bool
deriving DecidableEq

/-- A persisted account record in the Open WebUI store (the collaborator
behind `Users` / `Auths`).  The random placeholder password passed to
insert_new_auth is opaque and not modelled. -/
structure Account where
  email : String
  name : String
  profile_image_url : String
  role : String
  oauth_sub : String
deriving DecidableEq

/-- Users.get_user_by_oauth_sub: lookup in the account store by oauth_sub. -/
def get_user_by_oauth_sub (db : List Account) (sub : String) : Option Account :=
  db.find? (fun u => u.oauth_sub == sub)

/-- Users.get_user_by_email: lookup in the account store by email. -/
def get_user_by_email (db : List Account) (em : String) : Option Account :=
  db.find? (fun u => u.email == em)

/-- Auths.insert_new_auth: the account-store insert, modelled as appending
the new record; returns the created record and the new store state. -/
def insert_new_auth (db : List Account)
    (email name profile_image_url role oauth_sub : String) :
    Account × List Account :=
  let a : Account := ⟨email, name, profile_image_url, role, oauth_sub⟩
  (a, db ++ [a])

/-- The configuration constants read at the top of kafka_consumer.py
(lines 24-30), passed explicitly. -/
structure ResolverConfig where
  client_id : String
  client_secret : String
  token_endpoint : String
  scopes : String
  api_base_url : String
  user_endpoint_template : String
deriving DecidableEq

/-- The default configuration values from lines 24-30 of kafka_consumer.py. -/
def defaultConfig : ResolverConfig :=
  { client_id := "demo-service-client"
  , client_secret := "demo-service-secret"
  , token_endpoint := "http://localhost:8881/oauth2/token"
  , scopes := "internal.read"
  , api_base_url := "http://localhost:8881/api"
  , user_endpoint_template := "/users/\x7b\x7d" }

/-- Python truthiness of a string: non-empty. -/
def pyTruthyStr (s : String) : Bool := !(s == "")

/-- Outcome of the explicit token fetch on line 62 of kafka_consumer.py:
either a token was obtained, or client.fetch_token raised (non-success
response, non-decodable body, network failure, ...). -/
inductive TokenResult where
  | ok
  | err
deriving DecidableEq

/-- Outcome of the profile GET (lines 70-73 of kafka_consumer.py): a 2xx
response whose body decodes to user data, a non-2xx status (raise_for_status
throws httpx.HTTPStatusError), a transport failure (httpx.RequestError), or
any other exception such as a JSON decode failure. -/
inductive ProfileResp where
  | ok (d : UserData)
  | httpStatus (code : Nat)
  | requestError
  | otherError
deriving DecidableEq

/-- The network behaviour the identity service exhibits for one resolution
attempt: result of the token fetch and of the profile GET. -/
structure NetBehavior where
  tok : TokenResult
  resp : ProfileResp
deriving DecidableEq

/-- What one call of fetch_user_from_authserver returned and which network
requests it issued. -/
structure FetchOutcome where
  result : Option UserData
  tokenRequested : Bool
  getIssued : Bool
deriving DecidableEq

/-- Python str.rstrip with a slash argument, as on line 48 of
kafka_consumer.py: drop trailing slash characters. -/
def pyRstripSlash (s : String) : String :=
  ⟨(s.data.reverse.dropWhile (· == '/')).reverse⟩

/-- Python str.format with one positional argument on a template containing
one placeholder pair of braces, as on line 47 of kafka_consumer.py: the
first placeholder is replaced by the raw argument. -/
def pyFormat1 : List Char → List Char → List Char
  | [], _ => []
  | '\x7b' :: '\x7d' :: rest, arg => arg ++ rest
  | c :: rest, arg => c :: pyFormat1 rest arg

/-- URL construction of lines 47-48 of kafka_consumer.py:
url = base_url.rstrip(slash) + template.format(user_uuid). -/
def buildUserUrl (cfg : ResolverConfig) (user_uuid : String) : String :=
  ⟨(pyRstripSlash cfg.api_base_url).data
    ++ pyFormat1 cfg.user_endpoint_template.data user_uuid.data⟩

/-- Modelled from the spec: percent-escaping of a URL-reserved character for
a path segment (the source never escapes; this definition exists only to
compare the source URL construction against the escaped form the spec
demands). -/
def pathEscapeChar (c : Char) : List Char :=
  if c == '/' then ['%', '2', 'F']
  else if c == '?' then ['%', '3', 'F']
  else if c == '#' then ['%', '2', '3']
  else if c == ' ' then ['%', '2', '0']
  else [c]

/-- Modelled from the spec: percent-escaped form of an identifier used as a
URL path segment. -/
def pathEscape (s : String) : String := ⟨(s.data.map pathEscapeChar).flatten⟩

/-- Modelled from the spec: the profile-fetch URL the spec demands,
base followed by slash-users-slash and the path-escaped identifier. -/
def specUserUrl (cfg : ResolverConfig) (externalId : String) : String :=
  ⟨(pyRstripSlash cfg.api_base_url).data ++ "/users/".data
    ++ (pathEscape externalId).data⟩

/-- fetch_user_from_authserver, lines 40-88 of kafka_consumer.py, as a pure
function of the configuration and the network behaviour for this attempt.
Line 43 guards only client_id, client_secret and token_endpoint; a token
fetch failure returns None before any GET; every non-2xx status, transport
error or decode failure on the GET is caught and returns None. -/
def fetch_user_from_authserver (cfg : ResolverConfig) (net : NetBehavior) :
    FetchOutcome :=
  if !(pyTruthyStr cfg.client_id && pyTruthyStr cfg.client_secret
        && pyTruthyStr cfg.token_endpoint) then
    ⟨none, false, false⟩
  else
    match net.tok with
    | .err => ⟨none, true, false⟩
    | .ok =>
      match net.resp with
      | .ok d => ⟨some d, true, true⟩
      | .httpStatus _ => ⟨none, true, true⟩
      | .requestError => ⟨none, true, true⟩
      | .otherError => ⟨none, true, true⟩

/-- How one message fared inside the per-message pipeline of
consume_user_created_events (lines 114-169 of kafka_consumer.py). -/
inductive ProcOutcome where
  | skippedEmptyValue
  | skippedUnresolved
  | skippedDisabled
  | skippedMissingEmail
  | skippedDuplicate
  | provisioned
deriving DecidableEq

/-- The arguments of one Auths.insert_new_auth call (line 157; the random
password argument is opaque and not recorded). -/
structure InsertCall where
  email : String
  name : String
  profile_image_url : String
  role : String
  oauth_sub : String
deriving DecidableEq

/-- Result of running the per-message pipeline on one decoded value: the
account store afterwards, the insert calls made, and the outcome. -/
structure StepResult where
  db : List Account
  inserts : List InsertCall
  outcome : ProcOutcome
deriving DecidableEq

/-- The per-message pipeline, lines 114-169 of kafka_consumer.py, on one
decoded message value (`none` when the Kafka value was null).  Steps in
source order: empty or non-string value check (115), resolution (119-123),
field extraction and defaults (125-142), enabled gate (143), email gate
(147), dedup lookups (151), insert (157). -/
def processValue (cfg : ResolverConfig) (net : String → NetBehavior)
    (db : List Account) (v : Option String) : StepResult :=
  match v with
  | none => ⟨db, [], .skippedEmptyValue⟩
  | some s =>
    if pyStrip s == "" then ⟨db, [], .skippedEmptyValue⟩
    else
      match (fetch_user_from_authserver cfg (net s)).result with
      | none => ⟨db, [], .skippedUnresolved⟩
      | some d =>
        let name := d.name.getD s
        let profile_image_url_to_save := d.profileImageUrl.getD "/user.png"
        let open_webui_role := deriveRole d.roles
        let oauth_sub := d.uuid.getD s
        let is_enabled := d.enabled.getD true
        if !is_enabled then ⟨db, [], .skippedDisabled⟩
        else
          match d.email with
          | none => ⟨db, [], .skippedMissingEmail⟩
          | some e =>
            if e == "" then ⟨db, [], .skippedMissingEmail⟩
            else if (get_user_by_oauth_sub db oauth_sub).isSome
                      || (get_user_by_email db (pyLower e)).isSome then
              ⟨db, [], .skippedDuplicate⟩
            else
              let ins := insert_new_auth db (pyLower e) name
                profile_image_url_to_save open_webui_role oauth_sub
              ⟨ins.2,
               [⟨pyLower e, name, profile_image_url_to_save,
                 open_webui_role, oauth_sub⟩],
               .provisioned⟩

/-- Is a byte a UTF-8 continuation byte (0x80-0xBF)? -/
def isCont (b : Nat) : Bool := 0x80 ≤ b && b ≤ 0xBF

/-- Strict UTF-8 decoding of a byte sequence, as Python bytes.decode
performs it: rejects stray continuation bytes, truncated sequences,
overlong encodings, surrogates and code points above 0x10FFFF. -/
def utf8Decode : List Nat → Option (List Char)
  | [] => some []
  | b :: rest =>
    if b ≤ 0x7F then (utf8Decode rest).map (Char.ofNat b :: ·)
    else if 0xC2 ≤ b && b ≤ 0xDF then
      match rest with
      | c1 :: rest2 =>
        if isCont c1 then
          (utf8Decode rest2).map
            (Char.ofNat ((b - 0xC0) * 0x40 + (c1 - 0x80)) :: ·)
        else none
      | [] => none
    else if 0xE0 ≤ b && b ≤ 0xEF then
      match rest with
      | c1 :: c2 :: rest2 =>
        if (if b == 0xE0 then 0xA0 else 0x80) ≤ c1
            && c1 ≤ (if b == 0xED then 0x9F else 0xBF) && isCont c2 then
          (utf8Decode rest2).map
            (Char.ofNat ((b - 0xE0) * 0x1000 + (c1 - 0x80) * 0x40
              + (c2 - 0x80)) :: ·)
        else none
      | _ => none
    else if 0xF0 ≤ b && b ≤ 0xF4 then
      match rest with
      | c1 :: c2 :: c3 :: rest2 =>
        if (if b == 0xF0 then 0x90 else 0x80) ≤ c1
            && c1 ≤ (if b == 0xF4 then 0x8F else 0xBF)
            && isCont c2 && isCont c3 then
          (utf8Decode rest2).map
            (Char.ofNat ((b - 0xF0) * 0x40000 + (c1 - 0x80) * 0x1000
              + (c2 - 0x80) * 0x40 + (c3 - 0x80)) :: ·)
        else none
      | _ => none
    else none

/-- Strict UTF-8 decoding to a string. -/
def utf8DecodeStr (bs : List Nat) : Option String :=
  (utf8Decode bs).map (⟨·⟩)

/-- Result of the value_deserializer lambda on line 98 of kafka_consumer.py:
either a decoded value (None input stays None), or a UnicodeDecodeError that
the lambda does not catch. -/
inductive DeserResult where
  | ok (v : Option String)
  | raised
deriving DecidableEq

/-- The value_deserializer lambda of line 98: decode as UTF-8 when the raw
value is non-null, else None; a non-decodable value raises. -/
def value_deserializer (m : Option (List Nat)) : DeserResult :=
  match m with
  | none => .ok none
  | some bs =>
    match utf8DecodeStr bs with
    | some s => .ok (some s)
    | none => .raised

/-- Observable state of one run of the consumer loop: the account store, the
accumulated insert calls, how many messages reached the per-message pipeline,
and whether an exception escaped the per-message boundary and ended the
loop. -/
structure RunState where
  db : List Account
  inserts : List InsertCall
  processed : Nat
  aborted : Bool
deriving DecidableEq

/-- The Consuming-state loop of consume_user_created_events
(lines 110-172 of kafka_consumer.py) over a finite run of delivered raw
message values.  The value_deserializer runs at delivery time, inside the
iteration itself and outside the inner try of line 113, so a
UnicodeDecodeError from it ends the loop; the per-message pipeline runs
inside the try and its failures never end the loop. -/
def consume_run (cfg : ResolverConfig) (net : String → NetBehavior) :
    RunState → List (Option (List Nat)) → RunState
  | st, [] => st
  | st, m :: ms =>
    match value_deserializer m with
    | .raised => { st with aborted := true }
    | .ok v =>
      let r := processValue cfg net st.db v
      consume_run cfg net
        ⟨r.db, st.inserts ++ r.inserts, st.processed + 1, st.aborted⟩ ms

/-- One execution of the inner try of lines 113-172: the body is an
arbitrary Python computation over the state that returns the state it
reached and, when it raised, the exception that escaped it; the except
clause of line 171 catches the exception and the loop keeps the reached
state. -/
def perMessageStep {σ μ ε : Type} (body : σ → μ → σ × Option ε)
    (st : σ) (m : μ) : σ :=
  (body st m).1

/-- The message loop of lines 111-172 with the per-message body abstract:
each delivered message is handed to the per-message boundary and the loop
continues regardless of whether the body raised.  Returns the final state
and the number of messages handed to the boundary. -/
def consumingLoop {σ μ ε : Type} (body : σ → μ → σ × Option ε) :
    σ → List μ → σ × Nat
  | st, [] => (st, 0)
  | st, m :: ms =>
    let r := consumingLoop body (perMessageStep body st m) ms
    (r.1, r.2 + 1)

/-- Spec-side predicate: the string contains, in any casing, the admin
marker as a contiguous substring (some substring upper-cases to the
marker). -/
def containsAdminCI (s : String) : Prop :=
  ∃ a m b, s.data = a ++ m ++ b ∧ m.map Char.toUpper = adminMarker

/-- Spec-side predicate: the roles field contains an admin marker, taken as
a scalar string or as any element of a sequence, under case-insensitive
comparison. -/
def rolesHasAdminSpec : RolesField → Prop
  | .rstr s => containsAdminCI s
  | .rlist xs => ∃ x ∈ xs, containsAdminCI (pyStr x)
  | .rother => False

/-- The identity-service response of the spec example scenario: email
A-at-Ex.com, roles list containing ADMIN_ROLE, enabled true, no uuid
field. -/
def exampleProfile : UserData :=
  ⟨some "A@Ex.com", none, none, .rlist [.vstr "ADMIN_ROLE"], none, some true⟩

/-- Network behaviour that resolves every identifier to the given
profile. -/
def constNet (d : UserData) : String → NetBehavior :=
  fun _ => ⟨.ok, .ok d⟩

/-- Network behaviour where the profile GET always yields 404. -/
def net404 : String → NetBehavior :=
  fun _ => ⟨.ok, .httpStatus 404⟩

/-- Network behaviour where the profile GET always fails with a transport
error (an UpstreamError in the taxonomy of the spec). -/
def netUpstreamFail : String → NetBehavior :=
  fun _ => ⟨.ok, .requestError⟩

/- ------------------------------------------------------------------ -/
/- Theorems                                                           -/
/- ------------------------------------------------------------------ -/

lemma matchAt_iff (n h : List Char) :
    matchAt n h = true ↔ ∃ t, h = n ++ t := by
  induction n generalizing h with
  | nil => simp [matchAt]
  | cons a as ih =>
    cases h with
    | nil => simp [matchAt]
    | cons b bs =>
      simp [matchAt, ih, eq_comm (a := a) (b := b), And.comm]

lemma hasSub_iff (n h : List Char) :
    hasSub n h = true ↔ ∃ a b, h = a ++ n ++ b := by
  induction h with
  | nil =>
    simp [hasSub, matchAt_iff]
  | cons c cs ih =>
    simp only [hasSub, Bool.or_eq_true, ih, matchAt_iff]
    constructor
    · rintro (⟨t, ht⟩ | ⟨a, b, hab⟩)
      · exact ⟨[], t, by simpa using ht⟩
      · exact ⟨c :: a, b, by simp [hab]⟩
    · rintro ⟨a, b, hab⟩
      cases a with
      | nil =>
        exact Or.inl ⟨b, by simpa using hab⟩
      | cons x xs =>
        simp only [List.cons_append, List.cons.injEq] at hab
        exact Or.inr ⟨xs, b, hab.2⟩

lemma hasSub_upper_iff (l : List Char) :
    hasSub adminMarker (l.map Char.toUpper) = true ↔
      ∃ a m b, l = a ++ m ++ b ∧ m.map Char.toUpper = adminMarker := by
  rw [hasSub_iff]
  constructor
  · rintro ⟨a, b, hab⟩
    rw [List.append_assoc, List.map_eq_append_iff] at hab
    obtain ⟨l₁, l₂, hl, hm1, hm2⟩ := hab
    rw [List.map_eq_append_iff] at hm2
    obtain ⟨m, l₃, hl₂, hmm, hmb⟩ := hm2
    exact ⟨l₁, m, l₃, by rw [hl, hl₂, List.append_assoc], hmm⟩
  · rintro ⟨a, m, b, hl, hm⟩
    exact ⟨a.map Char.toUpper, b.map Char.toUpper, by
      simp [hl, ← hm]⟩

/-- Claim C5: for every profile, the derived role is admin if and only if
the roles field, taken as a scalar string or as any element of a sequence,
contains the admin marker as a substring under case-insensitive comparison;
in every other case (no match, roles absent, or roles of any other type) the
derived role is user. -/
theorem c5_role_derivation (r : RolesField) :
    (deriveRole r = "admin" ↔ rolesHasAdminSpec r) ∧
    (deriveRole r = "user" ↔ ¬ rolesHasAdminSpec r) := by
  cases r with
  | rstr s =>
    have h := hasSub_upper_iff s.data
    by_cases hc : hasSub adminMarker (pyUpper s).data = true
    · have hs : containsAdminCI s := by
        obtain ⟨a, m, b, h1, h2⟩ := (h.mp (by simpa [pyUpper] using hc))
        exact ⟨a, m, b, h1, h2⟩
      simp [deriveRole, hc, rolesHasAdminSpec, hs]
    · have hs : ¬ containsAdminCI s := by
        intro ⟨a, m, b, h1, h2⟩
        exact hc (by simpa [pyUpper] using h.mpr ⟨a, m, b, h1, h2⟩)
      simp [deriveRole, hc, rolesHasAdminSpec, hs]
  | rlist xs =>
    have key : (xs.any fun r => hasSub adminMarker (pyUpper (pyStr r)).data)
        = true ↔ ∃ x ∈ xs, containsAdminCI (pyStr x) := by
      rw [List.any_eq_true]
      constructor
      · rintro ⟨x, hx, hc⟩
        exact ⟨x, hx, (hasSub_upper_iff (pyStr x).data).mp
          (by simpa [pyUpper] using hc)⟩
      · rintro ⟨x, hx, a, m, b, h1, h2⟩
        exact ⟨x, hx, by
          simpa [pyUpper] using
            (hasSub_upper_iff (pyStr x).data).mpr ⟨a, m, b, h1, h2⟩⟩
    by_cases hc : (xs.any fun r => hasSub adminMarker (pyUpper (pyStr r)).data) = true
    · simp [deriveRole, hc, rolesHasAdminSpec, key.mp hc]
    · have : ¬ ∃ x ∈ xs, containsAdminCI (pyStr x) := fun h => hc (key.mpr h)
      simp [deriveRole, hc, rolesHasAdminSpec, this]
  | rother =>
    simp [deriveRole, rolesHasAdminSpec]

lemma consumingLoop_count {σ μ ε : Type} (body : σ → μ → σ × Option ε)
    (st : σ) (ms : List μ) : (consumingLoop body st ms).2 = ms.length := by
  induction ms generalizing st with
  | nil => rfl
  | cons m ms ih => simp [consumingLoop, ih]

/-- Claim C1: for every message delivered while the consumer loop is in the
Consuming state, any failure raised during that message processing is caught
and does not propagate out of the loop: the loop continues to the next
delivered message, so every remaining delivered message is still handed to
the per-message boundary and the final state is the one obtained by
continuing from the state the failing body reached. -/
theorem c1_per_message_isolation {σ μ ε : Type} (body : σ → μ → σ × Option ε)
    (st : σ) (m : μ) (ms : List μ) (e : ε)
    (hraised : (body st m).2 = some e) :
    consumingLoop body st (m :: ms)
      = ((consumingLoop body (body st m).1 ms).1, ms.length + 1) := by
  simp [consumingLoop, perMessageStep, consumingLoop_count]

/-- Witness for C1 at a concrete always-raising body over two messages:
both messages are handed to the boundary and the state reached by the first
body execution is kept. -/
theorem c1_per_message_isolation_witness :
    consumingLoop (fun (s m : Nat) => (s + m, (some 0 : Option Nat))) 0 [5, 7]
      = (12, 2) := by
  rw [c1_per_message_isolation
    (fun (s m : Nat) => (s + m, (some 0 : Option Nat))) 0 5 [7] 0 rfl]
  decide

/-- Claim C8 fails on the code: for the identifier a-slash-b, the URL built
by lines 47-48 of kafka_consumer.py inserts the raw identifier, not its
percent-escaped form, so it differs from the URL the claim demands. -/
theorem c8_counterexample :
    buildUserUrl defaultConfig "a/b" = "http://localhost:8881/api/users/a/b"
    ∧ specUserUrl defaultConfig "a/b"
        = "http://localhost:8881/api/users/a%2Fb"
    ∧ buildUserUrl defaultConfig "a/b" ≠ specUserUrl defaultConfig "a/b" := by
  refine ⟨by decide, by decide, by decide⟩

/-- Claim C8 as amended: for every external identifier, the resolver builds
the profile-fetch URL as the base URL with trailing slashes stripped,
followed by the user-endpoint template with its placeholder replaced by the
raw, unescaped identifier; with the default configuration this is the base
followed by slash-users-slash and the identifier verbatim. -/
theorem c8_amended (externalId : String) :
    buildUserUrl defaultConfig externalId
      = String.mk ("http://localhost:8881/api/users/".data ++ externalId.data) := by
  have h : ∀ l : List Char,
      pyFormat1 defaultConfig.user_endpoint_template.data l
        = "/users/".data ++ l ++ [] := by
    intro l
    rfl
  simp only [buildUserUrl, h]
  simp [pyRstripSlash, defaultConfig]

/-- Claim C9 fails on the code: line 43 of kafka_consumer.py guards only
client id, client secret and token endpoint; with the scope unconfigured
(empty) and every other setting in place, the resolver still requests a
token and issues the profile GET, and returns the fetched profile instead
of failing. -/
theorem c9_counterexample :
    fetch_user_from_authserver
        { defaultConfig with scopes := "" }
        ⟨TokenResult.ok, ProfileResp.ok exampleProfile⟩
      = ⟨some exampleProfile, true, true⟩ := by
  decide

/-- Claim C9 as amended: the resolver fails (returns no profile) without
requesting a token or issuing the profile GET whenever any of client id,
client secret, or token endpoint is not configured — the scope is not
checked — and fails without issuing the profile GET whenever the explicit
token fetch raises (non-success response, non-decodable body, or any other
error). -/
theorem c9_amended (cfg : ResolverConfig) (net : NetBehavior) :
    ((pyTruthyStr cfg.client_id && pyTruthyStr cfg.client_secret
        && pyTruthyStr cfg.token_endpoint) = false →
      fetch_user_from_authserver cfg net = ⟨none, false, false⟩)
    ∧ ((pyTruthyStr cfg.client_id && pyTruthyStr cfg.client_secret
        && pyTruthyStr cfg.token_endpoint) = true → net.tok = .err →
      fetch_user_from_authserver cfg net = ⟨none, true, false⟩) := by
  constructor
  · intro h
    simp [fetch_user_from_authserver, h]
  · intro h htok
    simp [fetch_user_from_authserver, h, htok]

/-- Witness for the amended C9: with an empty client id the resolver issues
no request at all, and with a failing token fetch it issues no profile
GET. -/
theorem c9_amended_witness :
    fetch_user_from_authserver { defaultConfig with client_id := "" }
        ⟨TokenResult.ok, ProfileResp.requestError⟩ = ⟨none, false, false⟩
    ∧ fetch_user_from_authserver defaultConfig
        ⟨TokenResult.err, ProfileResp.requestError⟩ = ⟨none, true, false⟩ :=
  ⟨(c9_amended { defaultConfig with client_id := "" }
      ⟨TokenResult.ok, ProfileResp.requestError⟩).1 (by decide),
   (c9_amended defaultConfig
      ⟨TokenResult.err, ProfileResp.requestError⟩).2 (by decide) rfl⟩

lemma processValue_eq_unresolved (cfg : ResolverConfig)
    (net : String → NetBehavior) (db : List Account) (s : String)
    (hs : pyStrip s ≠ "")
    (hres : (fetch_user_from_authserver cfg (net s)).result = none) :
    processValue cfg net db (some s) = ⟨db, [], .skippedUnresolved⟩ := by
  simp [processValue, hs, hres]

lemma processValue_eq_disabled (cfg : ResolverConfig)
    (net : String → NetBehavior) (db : List Account) (s : String)
    (d : UserData)
    (hs : pyStrip s ≠ "")
    (hres : (fetch_user_from_authserver cfg (net s)).result = some d)
    (hdis : d.enabled = some false) :
    processValue cfg net db (some s) = ⟨db, [], .skippedDisabled⟩ := by
  simp [processValue, hs, hres, hdis]

lemma processValue_eq_missing_email (cfg : ResolverConfig)
    (net : String → NetBehavior) (db : List Account) (s : String)
    (d : UserData)
    (hs : pyStrip s ≠ "")
    (hres : (fetch_user_from_authserver cfg (net s)).result = some d)
    (hen : d.enabled.getD true = true)
    (hem : d.email = none ∨ d.email = some "") :
    processValue cfg net db (some s) = ⟨db, [], .skippedMissingEmail⟩ := by
  rcases hem with hem | hem <;> simp [processValue, hs, hres, hen, hem]

lemma processValue_eq_duplicate (cfg : ResolverConfig)
    (net : String → NetBehavior) (db : List Account) (s : String)
    (d : UserData) (e : String)
    (hs : pyStrip s ≠ "")
    (hres : (fetch_user_from_authserver cfg (net s)).result = some d)
    (hen : d.enabled.getD true = true)
    (hem : d.email = some e) (hee : e ≠ "")
    (hdup : ((get_user_by_oauth_sub db (d.uuid.getD s)).isSome
        || (get_user_by_email db (pyLower e)).isSome) = true) :
    processValue cfg net db (some s) = ⟨db, [], .skippedDuplicate⟩ := by
  simp [processValue, hs, hres, hen, hem, hee, hdup]

lemma processValue_eq_insert (cfg : ResolverConfig)
    (net : String → NetBehavior) (db : List Account) (s : String)
    (d : UserData) (e : String)
    (hs : pyStrip s ≠ "")
    (hres : (fetch_user_from_authserver cfg (net s)).result = some d)
    (hen : d.enabled.getD true = true)
    (hem : d.email = some e) (hee : e ≠ "")
    (hsub : get_user_by_oauth_sub db (d.uuid.getD s) = none)
    (heml : get_user_by_email db (pyLower e) = none) :
    processValue cfg net db (some s)
      = ⟨db ++ [⟨pyLower e, d.name.getD s, d.profileImageUrl.getD "/user.png",
            deriveRole d.roles, d.uuid.getD s⟩],
         [⟨pyLower e, d.name.getD s, d.profileImageUrl.getD "/user.png",
            deriveRole d.roles, d.uuid.getD s⟩],
         .provisioned⟩ := by
  simp [processValue, hs, hres, hen, hem, hee, hsub, heml, insert_new_auth]

/-- Claim C2: for every well-formed external identifier whose resolution
yields an enabled profile with a non-empty email, when neither the lookup by
oauth_sub nor the lookup by lower-cased email finds an existing record,
processing performs exactly one account-store insert call, with the email
argument equal to the profile email lower-cased and the role argument equal
to the role derived from the roles field. -/
theorem c2_exactly_one_insert (cfg : ResolverConfig)
    (net : String → NetBehavior) (db : List Account) (s : String)
    (d : UserData) (e : String)
    (hs : pyStrip s ≠ "")
    (hres : (fetch_user_from_authserver cfg (net s)).result = some d)
    (hen : d.enabled.getD true = true)
    (hem : d.email = some e) (hee : e ≠ "")
    (hsub : get_user_by_oauth_sub db (d.uuid.getD s) = none)
    (heml : get_user_by_email db (pyLower e) = none) :
    (processValue cfg net db (some s)).inserts
      = [⟨pyLower e, d.name.getD s, d.profileImageUrl.getD "/user.png",
          deriveRole d.roles, d.uuid.getD s⟩] := by
  rw [processValue_eq_insert cfg net db s d e hs hres hen hem hee hsub heml]

/-- Witness for C2 at the spec example scenario: identifier abc-123 with a
profile carrying email A-at-Ex.com and roles ADMIN_ROLE yields exactly one
insert call with lower-cased email and role admin. -/
theorem c2_exactly_one_insert_witness :
    (processValue defaultConfig (constNet exampleProfile) []
        (some "abc-123")).inserts
      = [⟨"a@ex.com", "abc-123", "/user.png", "admin", "abc-123"⟩] := by
  rw [c2_exactly_one_insert defaultConfig (constNet exampleProfile) []
    "abc-123" exampleProfile "A@Ex.com" (by decide) rfl rfl rfl (by decide)
    rfl rfl]
  decide

lemma get_user_by_oauth_sub_append (db : List Account) (a : Account)
    (key : String)
    (h : get_user_by_oauth_sub db key = none) (hk : a.oauth_sub = key) :
    get_user_by_oauth_sub (db ++ [a]) key = some a := by
  simp only [get_user_by_oauth_sub] at h ⊢
  simp [List.find?_append, h, hk]

/-- Claim C3: processing the same external identifier twice is idempotent
with respect to inserts: the first attempt inserts once, the second attempt
finds the record created by the first via the oauth_sub lookup and performs
no insert, so exactly one insert occurs across both attempts; moreover an
insert call is made only when, immediately before it, no existing record
matches oauth_sub or the lower-cased email. -/
theorem c3_idempotent (cfg : ResolverConfig) (net : String → NetBehavior)
    (db : List Account) (s : String) (d : UserData) (e : String)
    (hs : pyStrip s ≠ "")
    (hres : (fetch_user_from_authserver cfg (net s)).result = some d)
    (hen : d.enabled.getD true = true)
    (hem : d.email = some e) (hee : e ≠ "")
    (hsub : get_user_by_oauth_sub db (d.uuid.getD s) = none)
    (heml : get_user_by_email db (pyLower e) = none) :
    (processValue cfg net db (some s)).inserts.length = 1
    ∧ (processValue cfg net (processValue cfg net db (some s)).db
        (some s)).inserts = []
    ∧ (processValue cfg net (processValue cfg net db (some s)).db
        (some s)).outcome = .skippedDuplicate
    ∧ (∀ db2, (processValue cfg net db2 (some s)).inserts ≠ [] →
        get_user_by_oauth_sub db2 (d.uuid.getD s) = none
        ∧ get_user_by_email db2 (pyLower e) = none) := by
  have hins := processValue_eq_insert cfg net db s d e hs hres hen hem hee
    hsub heml
  have hfind : get_user_by_oauth_sub
      (db ++ [⟨pyLower e, d.name.getD s, d.profileImageUrl.getD "/user.png",
        deriveRole d.roles, d.uuid.getD s⟩]) (d.uuid.getD s)
      = some ⟨pyLower e, d.name.getD s, d.profileImageUrl.getD "/user.png",
        deriveRole d.roles, d.uuid.getD s⟩ :=
    get_user_by_oauth_sub_append db _ _ hsub rfl
  have hdup2 : ((get_user_by_oauth_sub
        (db ++ [⟨pyLower e, d.name.getD s,
          d.profileImageUrl.getD "/user.png",
          deriveRole d.roles, d.uuid.getD s⟩]) (d.uuid.getD s)).isSome
      || (get_user_by_email
        (db ++ [⟨pyLower e, d.name.getD s,
          d.profileImageUrl.getD "/user.png",
          deriveRole d.roles, d.uuid.getD s⟩]) (pyLower e)).isSome)
      = true := by
    simp [hfind]
  refine ⟨by simp [hins], ?_, ?_, ?_⟩
  · rw [hins]
    rw [processValue_eq_duplicate cfg net _ s d e hs hres hen hem hee hdup2]
  · rw [hins]
    rw [processValue_eq_duplicate cfg net _ s d e hs hres hen hem hee hdup2]
  · intro db2 hne
    by_cases hdup : ((get_user_by_oauth_sub db2 (d.uuid.getD s)).isSome
        || (get_user_by_email db2 (pyLower e)).isSome) = true
    · exact absurd (by
        rw [processValue_eq_duplicate cfg net db2 s d e hs hres hen hem hee
          hdup]) hne
    · cases ho : get_user_by_oauth_sub db2 (d.uuid.getD s) with
      | some a => exact absurd (by simp [ho]) hdup
      | none =>
        cases he2 : get_user_by_email db2 (pyLower e) with
        | some a => exact absurd (by simp [ho, he2]) hdup
        | none => exact ⟨rfl, rfl⟩

/-- Witness for C3 at the spec example scenario: first attempt inserts
once, second attempt performs no insert and skips as a duplicate, and the
dedup guard holds before any insert. -/
theorem c3_idempotent_witness :
    (processValue defaultConfig (constNet exampleProfile) []
        (some "abc-123")).inserts.length = 1
    ∧ (processValue defaultConfig (constNet exampleProfile)
        (processValue defaultConfig (constNet exampleProfile) []
          (some "abc-123")).db (some "abc-123")).inserts = []
    ∧ (processValue defaultConfig (constNet exampleProfile)
        (processValue defaultConfig (constNet exampleProfile) []
          (some "abc-123")).db (some "abc-123")).outcome
        = .skippedDuplicate := by
  have h := c3_idempotent defaultConfig (constNet exampleProfile) []
    "abc-123" exampleProfile "A@Ex.com" (by decide) rfl rfl rfl (by decide)
    rfl rfl
  exact ⟨h.1, h.2.1, h.2.2.1⟩

/-- Claim C4: the provisioning decision applies its skip conditions in
priority order and never inserts in any of them: a profile with enabled
false is skipped as disabled regardless of all other field values;
otherwise an empty or absent email is skipped as missing email; otherwise a
record found by oauth_sub or by email is skipped as duplicate; only
otherwise does provisioning proceed. -/
theorem c4_skip_priority (cfg : ResolverConfig) (net : String → NetBehavior)
    (db : List Account) (s : String) (d : UserData)
    (hs : pyStrip s ≠ "")
    (hres : (fetch_user_from_authserver cfg (net s)).result = some d) :
    (d.enabled = some false →
      processValue cfg net db (some s) = ⟨db, [], .skippedDisabled⟩)
    ∧ (d.enabled.getD true = true → (d.email = none ∨ d.email = some "") →
      processValue cfg net db (some s) = ⟨db, [], .skippedMissingEmail⟩)
    ∧ (∀ e, d.enabled.getD true = true → d.email = some e → e ≠ "" →
      ((get_user_by_oauth_sub db (d.uuid.getD s)).isSome
        || (get_user_by_email db (pyLower e)).isSome) = true →
      processValue cfg net db (some s) = ⟨db, [], .skippedDuplicate⟩)
    ∧ (∀ e, d.enabled.getD true = true → d.email = some e → e ≠ "" →
      ((get_user_by_oauth_sub db (d.uuid.getD s)).isSome
        || (get_user_by_email db (pyLower e)).isSome) = false →
      (processValue cfg net db (some s)).outcome = .provisioned
      ∧ (processValue cfg net db (some s)).inserts ≠ []) := by
  refine ⟨?_, ?_, ?_, ?_⟩
  · intro hdis
    exact processValue_eq_disabled cfg net db s d hs hres hdis
  · intro hen hem
    exact processValue_eq_missing_email cfg net db s d hs hres hen hem
  · intro e hen hem hee hdup
    exact processValue_eq_duplicate cfg net db s d e hs hres hen hem hee hdup
  · intro e hen hem hee hdup
    cases ho : get_user_by_oauth_sub db (d.uuid.getD s) with
    | some a => simp [ho] at hdup
    | none =>
      cases he2 : get_user_by_email db (pyLower e) with
      | some a => simp [ho, he2] at hdup
      | none =>
        rw [processValue_eq_insert cfg net db s d e hs hres hen hem hee ho
          he2]
        exact ⟨rfl, by simp⟩

/-- Witness for C4: a disabled profile is skipped as disabled with no
insert, even though its email, roles and dedup state would otherwise allow
provisioning. -/
theorem c4_skip_priority_witness :
    processValue defaultConfig
        (constNet ⟨some "x@y.z", none, none, .rlist [.vstr "ADMIN_ROLE"],
          none, some false⟩) [] (some "u-1")
      = ⟨[], [], .skippedDisabled⟩ :=
  (c4_skip_priority defaultConfig
    (constNet ⟨some "x@y.z", none, none, .rlist [.vstr "ADMIN_ROLE"],
      none, some false⟩) [] "u-1"
    ⟨some "x@y.z", none, none, .rlist [.vstr "ADMIN_ROLE"], none,
      some false⟩ (by decide) rfl).1 rfl

/-- Claim C10: for every resolved profile lacking a uuid field, the
pipeline falls back to the raw bus-message identifier as the external id:
the dedup decision is keyed by the Kafka message value, and every insert
call passes the Kafka message value as oauth_sub. -/
theorem c10_uuid_fallback (cfg : ResolverConfig)
    (net : String → NetBehavior) (db : List Account) (s : String)
    (d : UserData) (e : String)
    (hs : pyStrip s ≠ "")
    (hres : (fetch_user_from_authserver cfg (net s)).result = some d)
    (huuid : d.uuid = none)
    (hen : d.enabled.getD true = true)
    (hem : d.email = some e) (hee : e ≠ "") :
    ((processValue cfg net db (some s)).outcome = .skippedDuplicate
      ↔ ((get_user_by_oauth_sub db s).isSome
          || (get_user_by_email db (pyLower e)).isSome) = true)
    ∧ (∀ c ∈ (processValue cfg net db (some s)).inserts,
        c.oauth_sub = s) := by
  have hgd : d.uuid.getD s = s := by simp [huuid]
  by_cases hdup : ((get_user_by_oauth_sub db s).isSome
      || (get_user_by_email db (pyLower e)).isSome) = true
  · have hdup2 : ((get_user_by_oauth_sub db (d.uuid.getD s)).isSome
        || (get_user_by_email db (pyLower e)).isSome) = true := by
      rw [hgd]; exact hdup
    rw [processValue_eq_duplicate cfg net db s d e hs hres hen hem hee hdup2]
    exact ⟨by simp [hdup], by simp⟩
  · cases ho : get_user_by_oauth_sub db s with
    | some a => exact absurd (by simp [ho]) hdup
    | none =>
      cases he2 : get_user_by_email db (pyLower e) with
      | some a => exact absurd (by simp [ho, he2]) hdup
      | none =>
        have ho2 : get_user_by_oauth_sub db (d.uuid.getD s) = none := by
          rw [hgd]; exact ho
        rw [processValue_eq_insert cfg net db s d e hs hres hen hem hee ho2
          he2]
        constructor
        · simp [hdup]
        · intro c hc
          simp at hc
          rw [hc]
          exact hgd

/-- Witness for C10 at the spec example profile, which has no uuid field:
the insert call carries the Kafka message value abc-123 as oauth_sub, and
with an empty store the event is not skipped as a duplicate. -/
theorem c10_uuid_fallback_witness :
    InsertCall.oauth_sub
        ⟨"a@ex.com", "abc-123", "/user.png", "admin", "abc-123"⟩ = "abc-123"
    ∧ (processValue defaultConfig (constNet exampleProfile) []
        (some "abc-123")).outcome ≠ ProcOutcome.skippedDuplicate := by
  have h := c10_uuid_fallback defaultConfig (constNet exampleProfile) []
    "abc-123" exampleProfile "A@Ex.com" (by decide) rfl rfl rfl rfl
    (by decide)
  refine ⟨h.2 ⟨"a@ex.com", "abc-123", "/user.png", "admin", "abc-123"⟩
    (by decide), fun hd => ?_⟩
  have := h.1.mp hd
  simp [get_user_by_oauth_sub, get_user_by_email] at this

/-- Claim C6: for every event whose profile fetch returns HTTP 404, the
resolver returns no profile rather than raising (the GET was issued and the
result is empty), no insert occurs for that event, and the consumer loop
continues with the next message, its state unchanged apart from the
processed counter. -/
theorem c6_404_absent (cfg : ResolverConfig) (net : String → NetBehavior)
    (db : List Account) (st : RunState) (bs : List Nat) (s : String)
    (ms : List (Option (List Nat)))
    (hcid : pyTruthyStr cfg.client_id = true)
    (hcs : pyTruthyStr cfg.client_secret = true)
    (hte : pyTruthyStr cfg.token_endpoint = true)
    (hnet : net s = ⟨.ok, .httpStatus 404⟩)
    (hdec : utf8DecodeStr bs = some s)
    (hs : pyStrip s ≠ "") :
    fetch_user_from_authserver cfg (net s) = ⟨none, true, true⟩
    ∧ processValue cfg net db (some s) = ⟨db, [], .skippedUnresolved⟩
    ∧ consume_run cfg net st (some bs :: ms)
        = consume_run cfg net
            ⟨st.db, st.inserts, st.processed + 1, st.aborted⟩ ms := by
  have hf : fetch_user_from_authserver cfg (net s) = ⟨none, true, true⟩ := by
    rw [hnet]
    simp [fetch_user_from_authserver, hcid, hcs, hte]
  have hp : ∀ db2, processValue cfg net db2 (some s)
      = ⟨db2, [], .skippedUnresolved⟩ := fun db2 =>
    processValue_eq_unresolved cfg net db2 s hs (by rw [hf])
  refine ⟨hf, hp db, ?_⟩
  simp [consume_run, value_deserializer, hdec, hp st.db]

/-- Witness for C6 at the spec example scenario: event xyz-999 resolves to
a 404, the resolver returns no profile, no insert happens and the loop goes
on having only counted the message. -/
theorem c6_404_absent_witness :
    fetch_user_from_authserver defaultConfig (net404 "xyz-999")
        = ⟨none, true, true⟩
    ∧ processValue defaultConfig net404 [] (some "xyz-999")
        = ⟨[], [], .skippedUnresolved⟩
    ∧ consume_run defaultConfig net404 ⟨[], [], 0, false⟩
        [some [120, 121, 122, 45, 57, 57, 57]] = ⟨[], [], 1, false⟩ := by
  have h := c6_404_absent defaultConfig net404 [] ⟨[], [], 0, false⟩
    [120, 121, 122, 45, 57, 57, 57] "xyz-999" [] (by decide) (by decide)
    (by decide) rfl (by decide) (by decide)
  refine ⟨h.1, h.2.1, ?_⟩
  rw [h.2.2]
  decide

/-- Claim C7 fails on the code: a run with a non-UTF-8-decodable raw value
followed by a well-formed message terminates at the malformed message
(the deserializer on line 98 of kafka_consumer.py raises at delivery time,
outside the per-message try of line 113), so the well-formed message is
never processed and its insert never happens, while the same well-formed
message alone is processed and inserted. -/
theorem c7_counterexample :
    consume_run defaultConfig (constNet exampleProfile) ⟨[], [], 0, false⟩
        [some [0xFF], some [97]]
      = ⟨[], [], 0, true⟩
    ∧ consume_run defaultConfig (constNet exampleProfile) ⟨[], [], 0, false⟩
        [some [97]]
      = ⟨[⟨"a@ex.com", "a", "/user.png", "admin", "a"⟩],
         [⟨"a@ex.com", "a", "/user.png", "admin", "a"⟩], 1, false⟩ := by
  exact ⟨by decide, by decide⟩

/-- Claim C7 as amended: a message whose resolution fails (the resolver
returns no profile, as for an UpstreamError) does not prevent the following
messages of the run from being processed — the loop state after the failure
equals the state before it apart from the processed counter; but a message
whose raw value is not UTF-8-decodable raises in the value deserializer at
delivery time, outside the per-message boundary, and terminates the run. -/
theorem c7_amended (cfg : ResolverConfig) (net : String → NetBehavior)
    (st : RunState) (bs : List Nat) (ms : List (Option (List Nat))) :
    (∀ s, utf8DecodeStr bs = some s → pyStrip s ≠ "" →
      (fetch_user_from_authserver cfg (net s)).result = none →
      consume_run cfg net st (some bs :: ms)
        = consume_run cfg net
            ⟨st.db, st.inserts, st.processed + 1, st.aborted⟩ ms)
    ∧ (utf8DecodeStr bs = none →
      consume_run cfg net st (some bs :: ms) = { st with aborted := true }) := by
  constructor
  · intro s hdec hs hres
    simp [consume_run, value_deserializer, hdec,
      processValue_eq_unresolved cfg net st.db s hs hres]
  · intro hdec
    simp [consume_run, value_deserializer, hdec]

/-- Witness for the amended C7: a message whose resolution fails with a
transport error leaves the store and insert list unchanged and only counts
the message, and a lone 0xFF byte ends the run. -/
theorem c7_amended_witness :
    consume_run defaultConfig netUpstreamFail ⟨[], [], 0, false⟩ [some [97]]
      = ⟨[], [], 1, false⟩
    ∧ consume_run defaultConfig netUpstreamFail ⟨[], [], 0, false⟩
        [some [0xFF]] = ⟨[], [], 0, true⟩ := by
  have h := c7_amended defaultConfig netUpstreamFail ⟨[], [], 0, false⟩
    [97] []
  have h2 := c7_amended defaultConfig netUpstreamFail ⟨[], [], 0, false⟩
    [0xFF] []
  refine ⟨?_, ?_⟩
  · rw [h.1 "a" (by decide) (by decide) rfl]
    decide
  · rw [h2.2 (by decide)]

end UserProvisioning
